import Mathlib

/-!
Verification of the socks5proxy repository against its specification.

The Python source is shallowly embedded: byte strings become `List Nat`
(each element a byte value), fallible Python code becomes `Except PyErr`,
and the per-connection handler objects of `protocol.py` / `socks5_server.py`
become explicit state records with the function-valued fields modelled as
enumerations of the concrete functions the source assigns to them.
-/

/-- The Python exceptions that the embedded code can raise.
`protocolError` models `errors.ProtocolError`; the others model the
corresponding built-in exceptions. -/
inductive ErrMsg where
  | clientGreetingTooSmall
  | invalidSocksVersion
  | tooFewAuthMethods
  | clientAuthenticationTooSmall
  | invalidUsernamePasswordAuthenticationVersion
  | usernameTooSmall
  | passwordTooSmall
  | connectionRequestTooSmall
  | invalidCommand
  | invalidReservedValue
  | invalidAddressType
deriving DecidableEq

inductive PyErr where
  | protocolError (msg : ErrMsg)
  | indexError
  | attributeError
  | unicodeDecodeError
  | valueError
deriving DecidableEq

/-- Python slice `data[a:b]` for `0 ≤ a ≤ b`: elements at indices `a .. b-1`,
clamped to the length of the list (slicing never raises). -/
def pySlice (data : List Nat) (a b : Nat) : List Nat := (data.take b).drop a

/-- Python `int.from_bytes(bs, byteorder="big", signed=False)`. -/
def int_from_bytes_be (bs : List Nat) : Nat := bs.foldl (fun acc b => acc * 256 + b) 0

/-- Python `bs.decode('ascii')`: succeeds iff every byte is < 128, giving the
string with those code points; otherwise raises UnicodeDecodeError. -/
def decode_ascii (bs : List Nat) : Except PyErr (List Nat) :=
  if bs.all (fun b => b < 128) then .ok bs else .error PyErr.unicodeDecodeError

/-- Model of the Python strings the codec produces. `str(ip_address(n))` is
injective on each address family, so an IP literal string is represented by
its numeric value together with its family; a string obtained from
`bytes.decode('ascii')` is represented by its code points. -/
inductive PyStr where
  | ipv4 (n : Nat)
  | ipv6 (n : Nat)
  | ascii (chars : List Nat)
deriving DecidableEq

/-- `ipaddress.ip_address(n)` for an `int` argument `n`: an `IPv4Address` when
`n < 2^32`, an `IPv6Address` when `n < 2^128`, otherwise ValueError. -/
def ip_address (n : Nat) : Except PyErr PyStr :=
  if n < 2 ^ 32 then .ok (PyStr.ipv4 n)
  else if n < 2 ^ 128 then .ok (PyStr.ipv6 n)
  else .error PyErr.valueError

/-! ## Codec: `socks5.py` (class `Socks5`) -/

def Socks5.PROTOCOL_VERSION : Nat := 0x05
def Socks5.AUTH_OK : Nat := 0x00
def Socks5.AUTH_FAIL : Nat := 0xFF
def Socks5.NO_AUTH : Nat := 0x00
def Socks5.USER_PWD : Nat := 0x02
def Socks5.NO_METHOD : Nat := 0xFF
def Socks5.AUTH_METHODS : List Nat := [Socks5.USER_PWD, Socks5.NO_AUTH]
def Socks5.MIN_CLIENT_GREETING_LEN : Nat := 3
def Socks5.PROTOCOL_INDEX : Nat := 0
def Socks5.AUTH_METHODS_INDEX : Nat := 1
def Socks5.MIN_CLIENT_AUTH_LEN : Nat := 5
def Socks5.AUTH_VER_INDEX : Nat := 0x00
def Socks5.AUTH_ULEN_INDEX : Nat := 0x01
def Socks5.AUTH_VERSION : Nat := 0x01
def Socks5.MIN_CLIENT_CONN_LEN : Nat := 8
def Socks5.COMMAND_INDEX : Nat := 0x01
def Socks5.COMMAND_STREAM : Nat := 0x01
def Socks5.RESERVED_INDEX : Nat := 0x02
def Socks5.RESERVED_VALUE : Nat := 0x00
def Socks5.ADDRESS_INDEX : Nat := 0x03
def Socks5.ADDRESS_IPV4 : Nat := 0x01
def Socks5.ADDRESS_DOMAIN : Nat := 0x03
def Socks5.ADDRESS_IPV6 : Nat := 0x04
def Socks5.REQUEST_GRANTED : Nat := 0x00
def Socks5.CONNECTION_REFUSED : Nat := 0x05

/-- `Socks5.parse_client_greeting` (socks5.py lines 58-72).  Every Python
subscript `data[i]` is modelled by `List.get?` with IndexError on a missing
index (here all subscripts are guarded by the preceding length checks). -/
def Socks5.parse_client_greeting (data : List Nat) : Except PyErr (List Nat) :=
  if data.length < Socks5.MIN_CLIENT_GREETING_LEN then
    .error (PyErr.protocolError ErrMsg.clientGreetingTooSmall)
  else match data.get? Socks5.PROTOCOL_INDEX with
  | none => .error PyErr.indexError
  | some v =>
    if v ≠ Socks5.PROTOCOL_VERSION then
      .error (PyErr.protocolError ErrMsg.invalidSocksVersion)
    else match data.get? Socks5.AUTH_METHODS_INDEX with
    | none => .error PyErr.indexError
    | some n_auth =>
      if n_auth = 0 then
        .error (PyErr.protocolError ErrMsg.tooFewAuthMethods)
      else
        let min_length := n_auth + Socks5.MIN_CLIENT_GREETING_LEN - 1
        if data.length < min_length then
          .error (PyErr.protocolError ErrMsg.clientGreetingTooSmall)
        else
          .ok (pySlice data (Socks5.AUTH_METHODS_INDEX + 1)
                (Socks5.AUTH_METHODS_INDEX + 1 + n_auth))

/-- `Socks5.choose_auth_method` (socks5.py lines 51-56): the `for` loop over
`Socks5.AUTH_METHODS` returning the first preferred method contained in
`auth_methods`, else `NO_METHOD`. -/
def Socks5.choose_auth_method_loop (preferred : List Nat) (auth_methods : List Nat) : Nat :=
  match preferred with
  | [] => Socks5.NO_METHOD
  | m :: rest =>
    if auth_methods.contains m then m else Socks5.choose_auth_method_loop rest auth_methods

def Socks5.choose_auth_method (auth_methods : List Nat) : Nat :=
  Socks5.choose_auth_method_loop Socks5.AUTH_METHODS auth_methods

/-- `Socks5.greeting_response` (socks5.py lines 122-124). -/
def Socks5.greeting_response (auth_method : Nat) : List Nat :=
  [Socks5.PROTOCOL_VERSION, auth_method]

/-- `Socks5.handle_client_greeting` (socks5.py lines 45-49). -/
def Socks5.handle_client_greeting (data : List Nat) : Except PyErr (Nat × List Nat) :=
  match Socks5.parse_client_greeting data with
  | .error e => .error e
  | .ok auth_methods =>
    let auth_method := Socks5.choose_auth_method auth_methods
    .ok (auth_method, Socks5.greeting_response auth_method)

/-- `Socks5.parse_username_password` (socks5.py lines 74-91).  Note the check
on line 85 is `len(data) < plen_index`, not `len(data) < plen_index + 1`, so
the subscript `data[plen_index]` on line 87 can be out of range (IndexError). -/
def Socks5.parse_username_password (data : List Nat) : Except PyErr (List Nat × List Nat) :=
  if data.length < Socks5.MIN_CLIENT_AUTH_LEN then
    .error (PyErr.protocolError ErrMsg.clientAuthenticationTooSmall)
  else match data.get? Socks5.AUTH_VER_INDEX with
  | none => .error PyErr.indexError
  | some v =>
    if v ≠ Socks5.AUTH_VERSION then
      .error (PyErr.protocolError ErrMsg.invalidUsernamePasswordAuthenticationVersion)
    else match data.get? Socks5.AUTH_ULEN_INDEX with
    | none => .error PyErr.indexError
    | some ulen =>
      if data.length < Socks5.AUTH_ULEN_INDEX + 1 + ulen then
        .error (PyErr.protocolError ErrMsg.usernameTooSmall)
      else
        let username := pySlice data (Socks5.AUTH_ULEN_INDEX + 1) (Socks5.AUTH_ULEN_INDEX + 1 + ulen)
        let plen_index := Socks5.AUTH_ULEN_INDEX + 1 + ulen
        if data.length < plen_index then
          .error (PyErr.protocolError ErrMsg.passwordTooSmall)
        else match data.get? plen_index with
        | none => .error PyErr.indexError
        | some plen =>
          if data.length < plen_index + 1 + plen then
            .error (PyErr.protocolError ErrMsg.passwordTooSmall)
          else
            .ok (username, pySlice data (plen_index + 1) (plen_index + 1 + plen))

/-- `Socks5.parse_connection_request` (socks5.py lines 93-120). -/
def Socks5.parse_connection_request (data : List Nat) : Except PyErr (PyStr × Nat × Nat) :=
  if data.length < Socks5.MIN_CLIENT_CONN_LEN then
    .error (PyErr.protocolError ErrMsg.connectionRequestTooSmall)
  else match data.get? Socks5.PROTOCOL_INDEX with
  | none => .error PyErr.indexError
  | some v =>
    if v ≠ Socks5.PROTOCOL_VERSION then
      .error (PyErr.protocolError ErrMsg.invalidSocksVersion)
    else match data.get? Socks5.COMMAND_INDEX with
    | none => .error PyErr.indexError
    | some cmd =>
      if cmd ≠ Socks5.COMMAND_STREAM then
        .error (PyErr.protocolError ErrMsg.invalidCommand)
      else match data.get? Socks5.RESERVED_INDEX with
      | none => .error PyErr.indexError
      | some rsv =>
        if rsv ≠ Socks5.RESERVED_VALUE then
          .error (PyErr.protocolError ErrMsg.invalidReservedValue)
        else match data.get? Socks5.ADDRESS_INDEX with
        | none => .error PyErr.indexError
        | some addr_type =>
          if addr_type = Socks5.ADDRESS_IPV4 then
            match ip_address (int_from_bytes_be (pySlice data 4 8)) with
            | .error e => .error e
            | .ok addr =>
              .ok (addr, int_from_bytes_be (pySlice data 8 10), Socks5.ADDRESS_IPV4)
          else if addr_type = Socks5.ADDRESS_DOMAIN then
            match data.get? 4 with
            | none => .error PyErr.indexError
            | some alen =>
              match decode_ascii (pySlice data 5 (5 + alen)) with
              | .error e => .error e
              | .ok chars =>
                .ok (PyStr.ascii chars,
                     int_from_bytes_be (pySlice data (5 + alen) (7 + alen)),
                     Socks5.ADDRESS_DOMAIN)
          else if addr_type = Socks5.ADDRESS_IPV6 then
            match ip_address (int_from_bytes_be (pySlice data 4 20)) with
            | .error e => .error e
            | .ok addr =>
              .ok (addr, int_from_bytes_be (pySlice data 20 22), Socks5.ADDRESS_IPV6)
          else
            .error (PyErr.protocolError ErrMsg.invalidAddressType)

/-- `Socks5.authentication_success` (socks5.py lines 126-128). -/
def Socks5.authentication_success : List Nat := [Socks5.AUTH_VERSION, Socks5.AUTH_OK]

/-- `Socks5.authentication_failure` (socks5.py lines 130-132). -/
def Socks5.authentication_failure : List Nat := [Socks5.AUTH_VERSION, Socks5.AUTH_FAIL]

/-- Big-endian bytes of `n`, `width` bytes wide: `n.to_bytes(width, "big")`
(for the in-range values produced by `addr.packed` and local ports). -/
def bytes_be (width n : Nat) : List Nat :=
  match width with
  | 0 => []
  | w + 1 => bytes_be w (n / 256) ++ [n % 256]

/-- `Socks5._connection_response` (socks5.py lines 142-154).  `ip_address` is
applied to a string here: on an IPv4/IPv6 literal it yields the corresponding
address, on any other string it raises ValueError; the trailing
`return None` of the source is unreachable and modelled by the error. -/
def Socks5.connection_response_of (host : PyStr) (port status : Nat) :
    Except PyErr (List Nat) :=
  match host with
  | PyStr.ipv4 n =>
    .ok ([Socks5.PROTOCOL_VERSION, status, Socks5.RESERVED_VALUE, Socks5.ADDRESS_IPV4]
          ++ bytes_be 4 n ++ bytes_be 2 port)
  | PyStr.ipv6 n =>
    .ok ([Socks5.PROTOCOL_VERSION, status, Socks5.RESERVED_VALUE, Socks5.ADDRESS_IPV6]
          ++ bytes_be 16 n ++ bytes_be 2 port)
  | PyStr.ascii _ => .error PyErr.valueError

/-- `Socks5.connection_success` (socks5.py lines 134-136). -/
def Socks5.connection_success (host : PyStr) (port : Nat) : Except PyErr (List Nat) :=
  Socks5.connection_response_of host port Socks5.REQUEST_GRANTED

/-- `Socks5.connection_failure` (socks5.py lines 138-140). -/
def Socks5.connection_failure (host : PyStr) (port : Nat) : Except PyErr (List Nat) :=
  Socks5.connection_response_of host port Socks5.CONNECTION_REFUSED


/-! ## Python attribute lookup

Reading `self.name` on a Python object succeeds iff `name` is an instance
attribute or a method/class attribute along the MRO; otherwise it raises
AttributeError.  The tables below transcribe exactly the names bound by the
source classes. -/

def pyGetAttr (attrs : List String) (name : String) : Except PyErr Unit :=
  if attrs.contains name then .ok () else .error PyErr.attributeError

/-- Instance attributes assigned in `Protocol.__init__` (protocol.py lines
26-39) together with the class attribute `BUFSIZE` and every method defined
by `class Protocol` (protocol.py lines 18-255).  In particular the only
closer-valued attribute is `_closer`; no attribute `closer` exists. -/
def protocolAttrs : List String :=
  ["_connector", "_selector", "_sock", "_local_addr", "_local_port",
   "_peer_addr", "_peer_port", "_write_buffer", "_write_handler", "_writer",
   "_reader", "_closer",
   "BUFSIZE", "on_connect", "data_received", "connection_lost", "write",
   "closing", "close", "sockid", "local_connection_params",
   "peer_connection_params", "_set_unconnected", "_set_connected",
   "_set_closing", "_connection_created", "_connection_complete",
   "_connected_write_handler", "_null_write_handler", "_read",
   "_connected_reader", "_write", "_connected_writer", "_closing_writer",
   "_null_network_handler", "_close", "_connected_closer", "_null_closer"]

/-- Attributes added by `class Socks5Protocol(Protocol)` (socks5_server.py
lines 20-133): instance attributes from its `__init__`, the class attribute
`conn_logger`, and its methods; followed by the inherited `Protocol` names. -/
def socks5ProtocolAttrs : List String :=
  ["_authenticator", "_data_received_handler", "_remote_server_protocol",
   "conn_logger", "data_received", "connection_lost", "_client_greeting",
   "_username_password_authentication", "_parse_client_connection_request",
   "_make_client_connection_request", "remote_connection_failure",
   "remote_connection_success", "_null_data_received_handler", "_proxy_data"]
  ++ protocolAttrs

/-! ## Connection runtime: `protocol.py` (class `Protocol`)

A `Protocol` object stores its behaviour in four function-valued fields
`_write_handler`, `_writer`, `_reader`, `_closer`; each field only ever holds
one of the concrete functions below, assigned together by `_set_unconnected`,
`_set_connected` and `_set_closing`, so each field is modelled by an
enumeration of those functions. -/

inductive WriteHandlerFn where
  | connected_write_handler
  | null_write_handler
deriving DecidableEq

inductive WriterFn where
  | connected_writer
  | closing_writer
  | null_network_handler
deriving DecidableEq

inductive ReaderFn where
  | connected_reader
  | null_network_handler
deriving DecidableEq

inductive CloserFn where
  | connected_closer
  | null_closer
deriving DecidableEq

/-- Which readiness events the socket is registered for with the selector
(`None` = not registered / unregistered). -/
inductive SelEvent where
  | read
  | write
deriving DecidableEq

/-- The mutable state of one `Protocol` object plus its socket's selector
registration.  `connection_lost_count` counts invocations of the
`connection_lost` callback. -/
structure ProtocolState where
  write_handler : WriteHandlerFn
  writer : WriterFn
  reader : ReaderFn
  closer : CloserFn
  write_buffer : List Nat
  registered : Option SelEvent
  sock_open : Bool
  local_addr : PyStr
  local_port : Nat
  peer_addr : PyStr
  peer_port : Nat
  connection_lost_count : Nat
deriving DecidableEq

/-- `Protocol._set_unconnected` (protocol.py lines 92-98). -/
def Protocol._set_unconnected (p : ProtocolState) : ProtocolState :=
  { p with write_handler := WriteHandlerFn.null_write_handler,
           writer := WriterFn.null_network_handler,
           reader := ReaderFn.null_network_handler,
           closer := CloserFn.null_closer }

/-- `Protocol._set_connected` (protocol.py lines 100-105). -/
def Protocol._set_connected (p : ProtocolState) : ProtocolState :=
  { p with write_handler := WriteHandlerFn.connected_write_handler,
           writer := WriterFn.connected_writer,
           reader := ReaderFn.connected_reader,
           closer := CloserFn.connected_closer }

/-- `Protocol._set_closing` (protocol.py lines 107-114). -/
def Protocol._set_closing (p : ProtocolState) : ProtocolState :=
  { p with write_handler := WriteHandlerFn.null_write_handler,
           writer := WriterFn.closing_writer,
           reader := ReaderFn.null_network_handler,
           closer := CloserFn.connected_closer }

/-- `Protocol._connected_closer` (protocol.py lines 239-251): unregister the
socket from the selector (tolerating "already unregistered"), close the fd,
`_set_unconnected`, then invoke `connection_lost` (here: the base class no-op,
counted). -/
def Protocol._connected_closer (p : ProtocolState) : ProtocolState :=
  let p := { p with registered := none, sock_open := false }
  let p := Protocol._set_unconnected p
  { p with connection_lost_count := p.connection_lost_count + 1 }

/-- `Protocol._null_closer` (protocol.py lines 253-255). -/
def Protocol._null_closer (p : ProtocolState) : ProtocolState := p

/-- Dispatch of `self._closer(sock)`. -/
def Protocol.applyCloser (p : ProtocolState) : ProtocolState :=
  match p.closer with
  | CloserFn.connected_closer => Protocol._connected_closer p
  | CloserFn.null_closer => Protocol._null_closer p

/-- `Protocol._close` (protocol.py lines 236-237): `self._closer(sock)`. -/
def Protocol._close (p : ProtocolState) : ProtocolState := Protocol.applyCloser p

/-- `Protocol._connected_write_handler` (protocol.py lines 175-182): extend
the write buffer, then `selector.modify(sock, EVENT_WRITE, ...)`;
`modify` raises ValueError/KeyError when the socket is not registered, which
the source catches and answers with `self._close(self._sock)`. -/
def Protocol._connected_write_handler (p : ProtocolState) (data : List Nat) : ProtocolState :=
  let p := { p with write_buffer := p.write_buffer ++ data }
  match p.registered with
  | some _ => { p with registered := some SelEvent.write }
  | none => Protocol._close p

/-- `Protocol._null_write_handler` (protocol.py lines 184-186). -/
def Protocol._null_write_handler (p : ProtocolState) (_data : List Nat) : ProtocolState := p

/-- `Protocol.write` (protocol.py lines 57-61): `self._write_handler(data)`. -/
def Protocol.write (p : ProtocolState) (data : List Nat) : ProtocolState :=
  match p.write_handler with
  | WriteHandlerFn.connected_write_handler => Protocol._connected_write_handler p data
  | WriteHandlerFn.null_write_handler => Protocol._null_write_handler p data

/-- `Protocol.closing` (protocol.py lines 63-73). -/
def Protocol.closing (p : ProtocolState) : ProtocolState :=
  if p.write_buffer.length = 0 then Protocol.applyCloser p
  else Protocol._set_closing p

/-- `Protocol.close` (protocol.py lines 75-78): the body is
`self.closer(self._sock)`, and `closer` (without the leading underscore) is
not among the attributes of a `Protocol` object (the field is `_closer`), so
the attribute read itself raises AttributeError and the closer is never run;
nothing after the failing lookup executes. -/
def Protocol.close (p : ProtocolState) : Except PyErr ProtocolState :=
  match pyGetAttr protocolAttrs ("closer") with
  | .error e => .error e
  | .ok _ => .ok p


/-! ## Authenticator: `authenticator.py` -/

/-- `Authenticator.authenticate` (authenticator.py lines 28-32) over the
loaded credential table (a mapping from username bytes to password bytes,
here an association list). -/
def Authenticator.authenticate (table : List (List Nat × List Nat))
    (username password : List Nat) : Bool :=
  match table.lookup username with
  | some stored => stored = password
  | none => false

/-! ## SOCKS5 session: `socks5_server.py` (class `Socks5Protocol`)

The mutable field `_data_received_handler` only ever holds one of the
handler methods below, so it is modelled by an enumeration. -/

inductive DataReceivedHandler where
  | client_greeting
  | username_password_authentication
  | parse_client_connection_request
  | null_data_received_handler
  | proxy_data
deriving DecidableEq

/-- State of one `Socks5Protocol` object: the inherited `Protocol` state, the
authenticator's credential table, the current `_data_received_handler`, and
`_remote_server_protocol` (the `Protocol` state of the paired
`RemoteServerProtocol`, `none` while unset; its back-reference to this
session is the session itself and is left implicit). -/
structure SessionState where
  proto : ProtocolState
  passwords : List (List Nat × List Nat)
  data_received_handler : DataReceivedHandler
  remote_server_protocol : Option ProtocolState
deriving DecidableEq

/-- `Protocol.close` as inherited by `Socks5Protocol` (protocol.py lines
75-78 invoked on a `Socks5Protocol` object): the body reads `self.closer`,
which is not an attribute of the object either (only `_closer` is), so the
call raises AttributeError before anything happens. -/
def Socks5Protocol.close (s : SessionState) : Except PyErr SessionState :=
  match pyGetAttr socks5ProtocolAttrs ("closer") with
  | .error e => .error e
  | .ok _ => .ok s

/-- `Socks5Protocol._client_greeting` (socks5_server.py lines 44-61).
The `try` block catches exactly `ProtocolError` and answers it with
`self.close()`; any other exception propagates. -/
def Socks5Protocol._client_greeting (s : SessionState) (data : List Nat) :
    Except PyErr SessionState :=
  match Socks5.handle_client_greeting data with
  | .ok (auth_method, response) =>
    let s := { s with proto := Protocol.write s.proto response }
    if auth_method = Socks5.NO_METHOD then
      .ok { s with proto := Protocol.closing s.proto }
    else if auth_method = Socks5.NO_AUTH then
      .ok { s with data_received_handler := DataReceivedHandler.parse_client_connection_request }
    else if auth_method = Socks5.USER_PWD then
      .ok { s with data_received_handler := DataReceivedHandler.username_password_authentication }
    else
      .ok s
  | .error (PyErr.protocolError _) => Socks5Protocol.close s
  | .error e => .error e

/-- `Socks5Protocol._username_password_authentication` (socks5_server.py
lines 63-77).  Again only `ProtocolError` is caught (answered with
`self.close()`); in particular the IndexError that
`Socks5.parse_username_password` can raise propagates. -/
def Socks5Protocol._username_password_authentication (s : SessionState) (data : List Nat) :
    Except PyErr SessionState :=
  match Socks5.parse_username_password data with
  | .ok (username, password) =>
    if Authenticator.authenticate s.passwords username password then
      let s := { s with proto := Protocol.write s.proto Socks5.authentication_success }
      .ok { s with data_received_handler := DataReceivedHandler.parse_client_connection_request }
    else
      let s := { s with proto := Protocol.write s.proto Socks5.authentication_failure }
      .ok { s with proto := Protocol.closing s.proto }
  | .error (PyErr.protocolError _) => Socks5Protocol.close s
  | .error e => .error e

/-- `Socks5Protocol._make_client_connection_request` (socks5_server.py lines
94-107).  Line 96 reads the attribute `peer_connection_parameters`, which
exists neither on `Socks5Protocol` nor on `Protocol` (the base class defines
`peer_connection_params`), so the read raises AttributeError; the
surrounding `except OSError` does not catch it, and lines 97-107 never
execute and are not modelled beyond the failing lookup. -/
def Socks5Protocol._make_client_connection_request (s : SessionState)
    (_remote_addr : PyStr) (_remote_port : Nat) : Except PyErr SessionState :=
  match pyGetAttr socks5ProtocolAttrs ("peer_connection_parameters") with
  | .error e => .error e
  | .ok _ => .ok s

/-- `Socks5Protocol._parse_client_connection_request` (socks5_server.py lines
79-92).  For a domain request the source only spawns a resolver thread and
returns (the continuation runs later); this scheduling is modelled as leaving
the session unchanged.  Only `ProtocolError` is caught. -/
def Socks5Protocol._parse_client_connection_request (s : SessionState) (data : List Nat) :
    Except PyErr SessionState :=
  match Socks5.parse_connection_request data with
  | .ok (remote_addr, remote_port, addr_type) =>
    if addr_type = Socks5.ADDRESS_DOMAIN then
      .ok s
    else
      Socks5Protocol._make_client_connection_request s remote_addr remote_port
  | .error (PyErr.protocolError _) => Socks5Protocol.close s
  | .error e => .error e

/-- `Socks5Protocol.remote_connection_failure` (socks5_server.py lines
109-115).  Line 113 reads the attribute `local_connection_parameters`, which
exists neither on `Socks5Protocol` nor on `Protocol` (the base class defines
`local_connection_params`), so the read itself raises AttributeError; lines
114-115 (writing the failure reply and `closing()`) never execute and are
not modelled beyond the failing lookup. -/
def Socks5Protocol.remote_connection_failure (s : SessionState) : Except PyErr SessionState :=
  match pyGetAttr socks5ProtocolAttrs ("local_connection_parameters") with
  | .error e => .error e
  | .ok _ => .ok s

/-- `Socks5Protocol.remote_connection_success` (socks5_server.py lines
117-122).  Line 120 reads the same nonexistent attribute
`local_connection_parameters`, so the read raises AttributeError; lines
121-122 (writing the success reply and switching the handler to
`_proxy_data`) never execute and are not modelled beyond the failing
lookup. -/
def Socks5Protocol.remote_connection_success (s : SessionState) : Except PyErr SessionState :=
  match pyGetAttr socks5ProtocolAttrs ("local_connection_parameters") with
  | .error e => .error e
  | .ok _ => .ok s

/-- `Socks5Protocol._null_data_received_handler` (socks5_server.py lines
124-130): `self.close()`. -/
def Socks5Protocol._null_data_received_handler (s : SessionState) (_data : List Nat) :
    Except PyErr SessionState :=
  Socks5Protocol.close s

/-- `Socks5Protocol._proxy_data` (socks5_server.py lines 132-133):
`self._remote_server_protocol.write(data)`; when the field is still `None`
the attribute read on `None` raises AttributeError. -/
def Socks5Protocol._proxy_data (s : SessionState) (data : List Nat) :
    Except PyErr SessionState :=
  match s.remote_server_protocol with
  | none => .error PyErr.attributeError
  | some r => .ok { s with remote_server_protocol := some (Protocol.write r data) }

/-- `Socks5Protocol.data_received` (socks5_server.py lines 35-37):
`self._data_received_handler(data)`. -/
def Socks5Protocol.data_received (s : SessionState) (data : List Nat) :
    Except PyErr SessionState :=
  match s.data_received_handler with
  | DataReceivedHandler.client_greeting => Socks5Protocol._client_greeting s data
  | DataReceivedHandler.username_password_authentication =>
    Socks5Protocol._username_password_authentication s data
  | DataReceivedHandler.parse_client_connection_request =>
    Socks5Protocol._parse_client_connection_request s data
  | DataReceivedHandler.null_data_received_handler =>
    Socks5Protocol._null_data_received_handler s data
  | DataReceivedHandler.proxy_data => Socks5Protocol._proxy_data s data

/-- `Socks5Protocol.connection_lost` (socks5_server.py lines 39-42). -/
def Socks5Protocol.connection_lost (s : SessionState) : SessionState :=
  match s.remote_server_protocol with
  | none => s
  | some r => { s with remote_server_protocol := some (Protocol.closing r) }

/-! ## Remote side: `remote_server_protocol.py` (class `RemoteServerProtocol`)

The object holds a back-reference `_client_protocol` to the owning session;
its callbacks act on that session's state. -/

/-- `RemoteServerProtocol.on_connect` (remote_server_protocol.py lines
17-22): `self._client_protocol.remote_connection_success()`. -/
def RemoteServerProtocol.on_connect (client_protocol : SessionState) :
    Except PyErr SessionState :=
  Socks5Protocol.remote_connection_success client_protocol

/-- `RemoteServerProtocol.data_received` (remote_server_protocol.py lines
24-26): `self._client_protocol.write(data)` (the base `Protocol.write` of the
session's connection). -/
def RemoteServerProtocol.data_received (client_protocol : SessionState) (data : List Nat) :
    SessionState :=
  { client_protocol with proto := Protocol.write client_protocol.proto data }

/-! ## Event loop: `connector.py` (class `Connector`) -/

/-- The body of `Connector.start` (connector.py lines 90-97) for one batch of
selector events: `for key, mask in events: callback = key.data;
callback(key.fileobj, mask)`.  There is no try/except around the callback
invocation, so an exception raised by a callback propagates, abandoning the
remaining events and the `while True` loop itself. -/
def Connector.start_dispatch {σ : Type} (events : List (σ → Except PyErr σ)) (s : σ) :
    Except PyErr σ :=
  match events with
  | [] => .ok s
  | cb :: rest =>
    match cb s with
    | .error e => .error e
    | .ok s2 => Connector.start_dispatch rest s2

/-! ## Concrete states used by the theorems -/

/-- A `ProtocolState` as it is right after `Connector.accept` plus
`Protocol._connection_complete` succeed for a client of the listening proxy:
handlers set by `_set_connected`, socket registered for read events, empty
write buffer, endpoints captured, `connection_lost` not yet called. -/
def connectedProto : ProtocolState :=
  { write_handler := WriteHandlerFn.connected_write_handler,
    writer := WriterFn.connected_writer,
    reader := ReaderFn.connected_reader,
    closer := CloserFn.connected_closer,
    write_buffer := [], registered := some SelEvent.read, sock_open := true,
    local_addr := PyStr.ipv4 2130706433, local_port := 1080,
    peer_addr := PyStr.ipv4 2130706433, peer_port := 40000,
    connection_lost_count := 0 }

/-- A fresh `Socks5Protocol` session on such a connection
(`Socks5Protocol.__init__`: handler starts at `_client_greeting`, no remote
connection yet), with an empty credential table. -/
def freshSession : SessionState :=
  { proto := connectedProto,
    passwords := [],
    data_received_handler := DataReceivedHandler.client_greeting,
    remote_server_protocol := none }

/-- A selector callback (as stored by the runtime for a readable client
socket) delivering the malformed greeting bytes [0x04, 0x01, 0x00] to the
first of two sessions; the world is the pair of session states. -/
def crashingEvent (w : SessionState × SessionState) :
    Except PyErr (SessionState × SessionState) :=
  match Socks5Protocol.data_received w.1 [4, 1, 0] with
  | .error e => .error e
  | .ok s1 => .ok (s1, w.2)

/-- A selector callback delivering the valid greeting bytes
[0x05, 0x01, 0x00] to the second of the two sessions. -/
def healthyEvent (w : SessionState × SessionState) :
    Except PyErr (SessionState × SessionState) :=
  match Socks5Protocol.data_received w.2 [5, 1, 0] with
  | .error e => .error e
  | .ok s2 => .ok (w.1, s2)


/-! ## Frame encoders

These follow the frame layouts stated by the specification (spec-side
definitions used to express round-trip and robustness claims; they do not
occur in the source, which only parses). -/

/-- Client greeting frame for method list `M`: `[0x05, |M|] ++ M`. -/
def specEncodeGreeting (M : List Nat) : List Nat := [5, M.length] ++ M

/-- Username/password sub-negotiation frame: `[0x01, |u|] ++ u ++ [|p|] ++ p`. -/
def specEncodeUsernamePassword (u p : List Nat) : List Nat :=
  [1, u.length] ++ u ++ [p.length] ++ p

/-- CONNECT request with an IPv4 address `a.b.c.d` and port bytes `q1 q2`. -/
def specEncodeConnIPv4 (a b c d q1 q2 : Nat) : List Nat := [5, 1, 0, 1, a, b, c, d, q1, q2]

/-- CONNECT request with a domain name `dom` and port bytes `q1 q2`. -/
def specEncodeConnDomain (dom : List Nat) (q1 q2 : Nat) : List Nat :=
  [5, 1, 0, 3, dom.length] ++ dom ++ [q1, q2]

/-- CONNECT request with a 16-byte IPv6 address `xs` and port bytes `q1 q2`. -/
def specEncodeConnIPv6 (xs : List Nat) (q1 q2 : Nat) : List Nat :=
  [5, 1, 0, 4] ++ xs ++ [q1, q2]

/-! ## List helper lemmas for the parsing proofs -/

theorem pySlice_mid (pre mid post : List Nat) :
    pySlice (pre ++ (mid ++ post)) pre.length (pre.length + mid.length) = mid := by
  unfold pySlice
  rw [List.take_append mid.length, List.drop_left, List.take_left]

theorem get?_mid (pre : List Nat) (x : Nat) (rest : List Nat) :
    (pre ++ x :: rest).get? pre.length = some x := by
  induction pre with
  | nil => rfl
  | cons h t ih => simpa using ih

theorem pySlice_eq_mid (data pre mid post : List Nat) (a b : Nat)
    (hdata : data = pre ++ (mid ++ post)) (ha : a = pre.length)
    (hb : b = pre.length + mid.length) : pySlice data a b = mid := by
  subst hdata; subst ha; subst hb; exact pySlice_mid pre mid post

theorem get?_eq_mid (data pre : List Nat) (x : Nat) (rest : List Nat) (i : Nat)
    (hdata : data = pre ++ (x :: rest)) (hi : i = pre.length) :
    data.get? i = some x := by
  subst hdata; subst hi; exact get?_mid pre x rest

/-! ## Parser evaluations on encoded frames (with arbitrary trailing bytes) -/

theorem parse_client_greeting_encode (M s : List Nat) (h1 : M.length ≠ 0) :
    Socks5.parse_client_greeting (specEncodeGreeting M ++ s) = Except.ok M := by
  have hmid := pySlice_mid [5, M.length] M s
  simp only [List.length_cons, List.length_nil, Nat.zero_add] at hmid
  simp only [specEncodeGreeting, Socks5.parse_client_greeting,
    Socks5.MIN_CLIENT_GREETING_LEN, Socks5.PROTOCOL_INDEX, Socks5.AUTH_METHODS_INDEX,
    Socks5.PROTOCOL_VERSION, List.cons_append, List.nil_append, List.get?,
    List.length_cons, List.length_append]
  rw [if_neg (by omega), if_neg (by decide), if_neg h1, if_neg (by omega)]
  simpa using hmid

theorem parse_username_password_encode (u p s : List Nat) (h2 : 2 ≤ u.length + p.length) :
    Socks5.parse_username_password (specEncodeUsernamePassword u p ++ s) = Except.ok (u, p) := by
  have hform : specEncodeUsernamePassword u p ++ s
      = 1 :: u.length :: (u ++ (p.length :: (p ++ s))) := by
    simp [specEncodeUsernamePassword]
  have huslice : pySlice (1 :: u.length :: (u ++ (p.length :: (p ++ s)))) (1 + 1)
      (1 + 1 + u.length) = u :=
    pySlice_eq_mid _ [1, u.length] u (p.length :: (p ++ s)) _ _ (by simp) (by simp) (by simp)
  have hplen : (1 :: u.length :: (u ++ (p.length :: (p ++ s)))).get? (1 + 1 + u.length)
      = some p.length :=
    get?_eq_mid _ ([1, u.length] ++ u) p.length (p ++ s) _ (by simp) (by simp; omega)
  have hpslice : pySlice (1 :: u.length :: (u ++ (p.length :: (p ++ s))))
      (1 + 1 + u.length + 1) (1 + 1 + u.length + 1 + p.length) = p :=
    pySlice_eq_mid _ ([1, u.length] ++ u ++ [p.length]) p s _ _ (by simp) (by simp; omega)
      (by simp; omega)
  rw [hform]
  simp only [Socks5.parse_username_password, Socks5.MIN_CLIENT_AUTH_LEN,
    Socks5.AUTH_VER_INDEX, Socks5.AUTH_ULEN_INDEX, Socks5.AUTH_VERSION,
    List.get?, List.length_cons, List.length_append]
  rw [if_neg (by omega), if_neg (by decide), if_neg (by omega), if_neg (by omega), hplen]
  simp only [huslice, hpslice]
  rw [if_neg (by omega)]

theorem parse_connection_request_ipv4_encode (a b c d q1 q2 : Nat) (s : List Nat) :
    Socks5.parse_connection_request (specEncodeConnIPv4 a b c d q1 q2 ++ s) =
      match ip_address (int_from_bytes_be [a, b, c, d]) with
      | .error e => .error e
      | .ok addr => .ok (addr, int_from_bytes_be [q1, q2], Socks5.ADDRESS_IPV4) := by
  have h48 : pySlice (5 :: 1 :: 0 :: 1 :: a :: b :: c :: d :: q1 :: q2 :: s) 4 8
      = [a, b, c, d] := by simp [pySlice]
  have h810 : pySlice (5 :: 1 :: 0 :: 1 :: a :: b :: c :: d :: q1 :: q2 :: s) 8 10
      = [q1, q2] := by simp [pySlice]
  simp only [specEncodeConnIPv4, Socks5.parse_connection_request,
    Socks5.MIN_CLIENT_CONN_LEN, Socks5.PROTOCOL_INDEX, Socks5.PROTOCOL_VERSION,
    Socks5.COMMAND_INDEX, Socks5.COMMAND_STREAM, Socks5.RESERVED_INDEX,
    Socks5.RESERVED_VALUE, Socks5.ADDRESS_INDEX, Socks5.ADDRESS_IPV4,
    List.cons_append, List.nil_append, List.get?, List.length_cons, List.length_append]
  rw [if_neg (by omega), if_neg (by decide), if_neg (by decide), if_neg (by decide),
    if_pos (by decide)]
  rw [h48, h810]

theorem parse_connection_request_domain_encode (dom : List Nat) (q1 q2 : Nat) (s : List Nat)
    (h1 : 1 ≤ dom.length) :
    Socks5.parse_connection_request (specEncodeConnDomain dom q1 q2 ++ s) =
      match decode_ascii dom with
      | .error e => .error e
      | .ok chars => .ok (PyStr.ascii chars, int_from_bytes_be [q1, q2],
          Socks5.ADDRESS_DOMAIN) := by
  have hform : specEncodeConnDomain dom q1 q2 ++ s
      = 5 :: 1 :: 0 :: 3 :: dom.length :: (dom ++ (q1 :: q2 :: s)) := by
    simp [specEncodeConnDomain]
  have hdslice : pySlice (5 :: 1 :: 0 :: 3 :: dom.length :: (dom ++ (q1 :: q2 :: s))) 5
      (5 + dom.length) = dom :=
    pySlice_eq_mid _ [5, 1, 0, 3, dom.length] dom (q1 :: q2 :: s) _ _ (by simp) (by simp)
      (by simp)
  have hqslice : pySlice (5 :: 1 :: 0 :: 3 :: dom.length :: (dom ++ (q1 :: q2 :: s)))
      (5 + dom.length) (7 + dom.length) = [q1, q2] :=
    pySlice_eq_mid _ ([5, 1, 0, 3, dom.length] ++ dom) [q1, q2] s _ _ (by simp)
      (by simp; omega) (by simp; omega)
  rw [hform]
  simp only [Socks5.parse_connection_request, Socks5.MIN_CLIENT_CONN_LEN,
    Socks5.PROTOCOL_INDEX, Socks5.PROTOCOL_VERSION, Socks5.COMMAND_INDEX,
    Socks5.COMMAND_STREAM, Socks5.RESERVED_INDEX, Socks5.RESERVED_VALUE,
    Socks5.ADDRESS_INDEX, Socks5.ADDRESS_IPV4, Socks5.ADDRESS_DOMAIN,
    List.get?, List.length_cons, List.length_append]
  rw [if_neg (by omega), if_neg (by decide), if_neg (by decide), if_neg (by decide),
    if_neg (by decide), if_pos (by decide)]
  rw [hdslice, hqslice]

theorem parse_connection_request_ipv6_encode (xs : List Nat) (q1 q2 : Nat) (s : List Nat)
    (h : xs.length = 16) :
    Socks5.parse_connection_request (specEncodeConnIPv6 xs q1 q2 ++ s) =
      match ip_address (int_from_bytes_be xs) with
      | .error e => .error e
      | .ok addr => .ok (addr, int_from_bytes_be [q1, q2], Socks5.ADDRESS_IPV6) := by
  have hform : specEncodeConnIPv6 xs q1 q2 ++ s
      = 5 :: 1 :: 0 :: 4 :: (xs ++ (q1 :: q2 :: s)) := by
    simp [specEncodeConnIPv6]
  have hxslice : pySlice (5 :: 1 :: 0 :: 4 :: (xs ++ (q1 :: q2 :: s))) 4 20 = xs :=
    pySlice_eq_mid _ [5, 1, 0, 4] xs (q1 :: q2 :: s) _ _ (by simp) (by simp)
      (by simp; omega)
  have hqslice : pySlice (5 :: 1 :: 0 :: 4 :: (xs ++ (q1 :: q2 :: s))) 20 22 = [q1, q2] :=
    pySlice_eq_mid _ ([5, 1, 0, 4] ++ xs) [q1, q2] s _ _ (by simp) (by simp; omega)
      (by simp; omega)
  rw [hform]
  simp only [Socks5.parse_connection_request, Socks5.MIN_CLIENT_CONN_LEN,
    Socks5.PROTOCOL_INDEX, Socks5.PROTOCOL_VERSION, Socks5.COMMAND_INDEX,
    Socks5.COMMAND_STREAM, Socks5.RESERVED_INDEX, Socks5.RESERVED_VALUE,
    Socks5.ADDRESS_INDEX, Socks5.ADDRESS_IPV4, Socks5.ADDRESS_DOMAIN,
    Socks5.ADDRESS_IPV6, List.get?, List.length_cons, List.length_append]
  rw [if_neg (by omega), if_neg (by decide), if_neg (by decide), if_neg (by decide),
    if_neg (by decide), if_neg (by decide), if_pos (by decide)]
  rw [hxslice, hqslice]

/-! ## Claim theorems -/

/-- C1: the claim says that when the remote outbound connection succeeds
(`RemoteServerProtocol.on_connect` firing while the session awaits the
remote), the session sends the client a success reply encoding its local
endpoint and transitions to proxying.  In the source this cannot happen:
`on_connect` calls `Socks5Protocol.remote_connection_success`, whose first
statement reads the nonexistent attribute `local_connection_parameters`
(the base class defines `local_connection_params`), so for every session
state the call raises AttributeError and neither the success reply nor the
switch to `_proxy_data` occurs. -/
theorem remote_on_connect_raises_attribute_error (s : SessionState) :
    RemoteServerProtocol.on_connect s = Except.error PyErr.attributeError
    ∧ Socks5Protocol.remote_connection_success s = Except.error PyErr.attributeError :=
  ⟨rfl, rfl⟩

/-- C2: the claim says that when the outbound remote connection fails, the
session sends a SOCKS failure reply (status 0x05) with its local endpoint
and transitions to Closing.  In the source `remote_connection_failure`
first reads the nonexistent attribute `local_connection_parameters`, so for
every session state the call raises AttributeError and no failure reply is
written and no transition happens. -/
theorem remote_connection_failure_raises_attribute_error (s : SessionState) :
    Socks5Protocol.remote_connection_failure s = Except.error PyErr.attributeError :=
  rfl

/-- C3: the claim says every frame one byte shorter than its declared length
makes each of the three parsers raise ProtocolError with no out-of-bounds
indexing.  The code violates this twice: the username/password frame for
u="abc", p="" truncated by one byte triggers the out-of-range subscript
`data[plen_index]` (IndexError), and the IPv4 CONNECT request truncated by
one byte is accepted, returning port 0 read from a single byte.  The last
two conjuncts witness that these inputs are exactly well-formed frames with
the final byte removed. -/
theorem truncated_frames_not_rejected_with_protocol_error :
    Socks5.parse_username_password [1, 3, 97, 98, 99] = Except.error PyErr.indexError
    ∧ Socks5.parse_connection_request [5, 1, 0, 1, 127, 0, 0, 1, 0] =
        Except.ok (PyStr.ipv4 2130706433, 0, Socks5.ADDRESS_IPV4)
    ∧ specEncodeUsernamePassword [97, 98, 99] [] = [1, 3, 97, 98, 99] ++ [0]
    ∧ specEncodeConnIPv4 127 0 0 1 0 80 = [5, 1, 0, 1, 127, 0, 0, 1, 0] ++ [80] :=
  ⟨rfl, rfl, rfl, rfl⟩

/-- C4: the claim says `Protocol.close()` closes on the first call and is a
no-op on the second.  In the source the body of `close` is
`self.closer(self._sock)`, and `closer` is not an attribute of the object
(the field is `_closer`), so every call — first or second, in any state —
raises AttributeError and performs no close at all. -/
theorem protocol_close_always_raises_attribute_error (p : ProtocolState) :
    Protocol.close p = Except.error PyErr.attributeError :=
  rfl

/-- C5 counterexample: the claimed round-trip fails for the empty username
and empty password: their encoded frame is the three bytes [1, 0, 0], which
`parse_username_password` rejects as shorter than MIN_CLIENT_AUTH_LEN = 5
instead of returning ("", ""). -/
theorem username_password_roundtrip_fails_on_empty :
    specEncodeUsernamePassword [] [] = [1, 0, 0]
    ∧ Socks5.parse_username_password [1, 0, 0] =
        Except.error (PyErr.protocolError ErrMsg.clientAuthenticationTooSmall) :=
  ⟨rfl, rfl⟩

/-- C5 amended: for every username u and password p with |u|, |p| ∈ [0, 255]
and |u| + |p| ≥ 2 (so that the encoded frame reaches the parser's 5-byte
minimum), `parse_username_password` applied to [0x01, |u|] ++ u ++ [|p|] ++ p
returns exactly (u, p) without raising. -/
theorem username_password_roundtrip (u p : List Nat)
    (hu : u.length ≤ 255) (hp : p.length ≤ 255) (h2 : 2 ≤ u.length + p.length) :
    Socks5.parse_username_password (specEncodeUsernamePassword u p) = Except.ok (u, p) := by
  have h := parse_username_password_encode u p [] h2
  simpa using h

/-- C5 witness: the amended round-trip at u = "a", p = "b". -/
theorem username_password_roundtrip_witness :
    Socks5.parse_username_password (specEncodeUsernamePassword [97] [98]) =
      Except.ok ([97], [98]) :=
  username_password_roundtrip [97] [98] (by decide) (by decide) (by decide)

/-- C6: for every method list M with |M| ∈ [1, 255], parsing the encoded
greeting [0x05, |M|] ++ M returns exactly M; `choose_auth_method` returns
0x02 if 0x02 ∈ M, else 0x00 if 0x00 ∈ M, else 0xFF; and the greeting
response is the two bytes [0x05, chosen_method]. -/
theorem greeting_roundtrip_and_method_choice (M : List Nat)
    (h1 : 1 ≤ M.length) (h2 : M.length ≤ 255) :
    Socks5.parse_client_greeting (specEncodeGreeting M) = Except.ok M
    ∧ Socks5.choose_auth_method M = (if 2 ∈ M then 2 else if 0 ∈ M then 0 else 255)
    ∧ Socks5.handle_client_greeting (specEncodeGreeting M) =
        Except.ok (Socks5.choose_auth_method M, [5, Socks5.choose_auth_method M]) := by
  have hp : Socks5.parse_client_greeting (specEncodeGreeting M) = Except.ok M := by
    have h := parse_client_greeting_encode M [] (by omega)
    simpa using h
  refine ⟨hp, ?_, ?_⟩
  · simp [Socks5.choose_auth_method, Socks5.AUTH_METHODS, Socks5.USER_PWD, Socks5.NO_AUTH,
      Socks5.choose_auth_method_loop, Socks5.NO_METHOD, List.elem_iff]
  · simp [Socks5.handle_client_greeting, hp, Socks5.greeting_response,
      Socks5.PROTOCOL_VERSION]

/-- C6 witness: the greeting behaviour at the concrete method list
M = [0x09, 0x02]. -/
theorem greeting_roundtrip_and_method_choice_witness :
    Socks5.parse_client_greeting (specEncodeGreeting [9, 2]) = Except.ok [9, 2]
    ∧ Socks5.choose_auth_method [9, 2] =
        (if 2 ∈ [9, 2] then 2 else if 0 ∈ [9, 2] then 0 else 255)
    ∧ Socks5.handle_client_greeting (specEncodeGreeting [9, 2]) =
        Except.ok (Socks5.choose_auth_method [9, 2], [5, Socks5.choose_auth_method [9, 2]]) :=
  greeting_roundtrip_and_method_choice [9, 2] (by decide) (by decide)

/-- C7: `parse_client_greeting` raises ProtocolError exactly when
len(data) < 3, or the version byte differs from 0x05, or NMETHODS = data[1]
is 0, or len(data) < 2 + NMETHODS; on every other input it succeeds and
returns the method list data[2 : 2 + NMETHODS]. -/
theorem parse_client_greeting_rejects_exactly (data : List Nat) :
    ((data.length < 3 ∨ data.getD 0 0 ≠ 5 ∨ data.getD 1 0 = 0 ∨
        data.length < 2 + data.getD 1 0) →
      ∃ m, Socks5.parse_client_greeting data = Except.error (PyErr.protocolError m))
    ∧ (¬(data.length < 3 ∨ data.getD 0 0 ≠ 5 ∨ data.getD 1 0 = 0 ∨
        data.length < 2 + data.getD 1 0) →
      Socks5.parse_client_greeting data = Except.ok (pySlice data 2 (2 + data.getD 1 0))) := by
  match data with
  | [] =>
    exact ⟨fun _ => ⟨ErrMsg.clientGreetingTooSmall, rfl⟩,
      fun h => absurd (Or.inl (by simp)) h⟩
  | [a] =>
    exact ⟨fun _ => ⟨ErrMsg.clientGreetingTooSmall, rfl⟩,
      fun h => absurd (Or.inl (by simp)) h⟩
  | [a, b] =>
    exact ⟨fun _ => ⟨ErrMsg.clientGreetingTooSmall, rfl⟩,
      fun h => absurd (Or.inl (by simp)) h⟩
  | a :: b :: c :: t =>
    simp only [Socks5.parse_client_greeting, Socks5.MIN_CLIENT_GREETING_LEN,
      Socks5.PROTOCOL_INDEX, Socks5.AUTH_METHODS_INDEX, Socks5.PROTOCOL_VERSION,
      List.get?, List.length_cons, List.getD, List.get?_cons_zero, Option.getD_some,
      List.get?_cons_succ]
    rw [if_neg (by omega)]
    by_cases ha : a = 5
    · subst ha
      rw [if_neg (by simp)]
      by_cases hb : b = 0
      · subst hb
        rw [if_pos rfl]
        exact ⟨fun _ => ⟨ErrMsg.tooFewAuthMethods, rfl⟩,
          fun h => absurd (Or.inr (Or.inr (Or.inl rfl))) h⟩
      · rw [if_neg hb]
        by_cases hlen : t.length + 1 + 1 + 1 < b + 3 - 1
        · rw [if_pos hlen]
          refine ⟨fun _ => ⟨ErrMsg.clientGreetingTooSmall, rfl⟩, fun h => absurd ?_ h⟩
          exact Or.inr (Or.inr (Or.inr (by omega)))
        · rw [if_neg hlen]
          refine ⟨fun h => ?_, fun h => ?_⟩
          · exfalso
            rcases h with h | h | h | h
            · omega
            · exact h rfl
            · exact hb h
            · omega
          · norm_num
    · rw [if_pos ha]
      exact ⟨fun _ => ⟨ErrMsg.invalidSocksVersion, rfl⟩,
        fun h => absurd (Or.inr (Or.inl (by simpa using ha))) h⟩

/-- C7 witness: the rejection side at the wrong-version greeting
[0x04, 0x01, 0x00] and the success side at [0x05, 0x01, 0x00]. -/
theorem parse_client_greeting_rejects_exactly_witness :
    (∃ m, Socks5.parse_client_greeting [4, 1, 0] = Except.error (PyErr.protocolError m))
    ∧ Socks5.parse_client_greeting [5, 1, 0] =
        Except.ok (pySlice [5, 1, 0] 2 (2 + List.getD [5, 1, 0] 1 0)) :=
  ⟨(parse_client_greeting_rejects_exactly [4, 1, 0]).1 (by decide),
   (parse_client_greeting_rejects_exactly [5, 1, 0]).2 (by decide)⟩

/-- C8: the claim says every callback dispatched by `Connector.start` is a
recovery boundary so the loop keeps serving the other sockets when one
callback raises.  The source loop has no try/except: the exception of the
first callback (here: a session given the malformed greeting [4, 1, 0],
whose ProtocolError handler calls `self.close()`, which raises
AttributeError) propagates out of the dispatch, and the second, healthy
session — whose own callback would have succeeded — is never served. -/
theorem event_loop_dies_on_callback_exception :
    Connector.start_dispatch [crashingEvent, healthyEvent] (freshSession, freshSession)
      = Except.error PyErr.attributeError
    ∧ (∃ w, healthyEvent (freshSession, freshSession) = Except.ok w) :=
  ⟨rfl, ⟨_, rfl⟩⟩

/-- C9: once `closing()` has been called on a connection with a non-empty
write buffer (putting it in the Closing configuration, i.e. `_set_closing`),
every subsequent application `write(data)` — one call or any sequence of
calls — is a silent no-op: it raises nothing and returns the state
unchanged in every field. -/
theorem write_is_noop_in_closing_state (p : ProtocolState) (d : List Nat)
    (ds : List (List Nat)) (hbuf : p.write_buffer ≠ []) :
    Protocol.closing p = Protocol._set_closing p
    ∧ Protocol.write (Protocol.closing p) d = Protocol.closing p
    ∧ List.foldl Protocol.write (Protocol.closing p) ds = Protocol.closing p := by
  have hc : Protocol.closing p = Protocol._set_closing p := by
    unfold Protocol.closing
    rw [if_neg (by simpa [List.length_eq_zero] using hbuf)]
  have hfold : ∀ l : List (List Nat),
      List.foldl Protocol.write (Protocol._set_closing p) l = Protocol._set_closing p := by
    intro l
    induction l with
    | nil => rfl
    | cons x t ih => exact ih
  refine ⟨hc, ?_, ?_⟩
  · rw [hc]
    rfl
  · rw [hc]
    exact hfold ds

/-- C9 witness: the no-op behaviour on a concrete connected state holding
one buffered byte. -/
theorem write_is_noop_in_closing_state_witness :
    Protocol.closing { connectedProto with write_buffer := [5] } =
      Protocol._set_closing { connectedProto with write_buffer := [5] }
    ∧ Protocol.write (Protocol.closing { connectedProto with write_buffer := [5] }) [7] =
        Protocol.closing { connectedProto with write_buffer := [5] }
    ∧ List.foldl Protocol.write (Protocol.closing { connectedProto with write_buffer := [5] })
        [[7], [8]] = Protocol.closing { connectedProto with write_buffer := [5] } :=
  write_is_noop_in_closing_state { connectedProto with write_buffer := [5] } [7] [[7], [8]]
    (by decide)

/-- C10 counterexample: the well-formed username/password frame for the
empty username and empty password is [1, 0, 0]; parsing it raises
ProtocolError, but parsing it with two trailing bytes appended succeeds,
so trailing bytes are not always ignored. -/
theorem trailing_bytes_change_result_on_short_frame :
    specEncodeUsernamePassword [] [] = [1, 0, 0]
    ∧ Socks5.parse_username_password [1, 0, 0] =
        Except.error (PyErr.protocolError ErrMsg.clientAuthenticationTooSmall)
    ∧ Socks5.parse_username_password ([1, 0, 0] ++ [0, 0]) = Except.ok ([], []) :=
  ⟨rfl, rfl, rfl⟩

/-- C10 amended: the three parsers ignore trailing bytes beyond the frame's
declared length on every well-formed frame, except for frames the parser
itself rejects as below its fixed minimum length (username/password frames
with |u| + |p| ≤ 1, and domain requests with an empty domain), where the
extension can change the outcome. -/
theorem parsers_ignore_trailing_bytes_amended :
    (∀ M s, 1 ≤ M.length → M.length ≤ 255 →
      Socks5.parse_client_greeting (specEncodeGreeting M ++ s)
        = Socks5.parse_client_greeting (specEncodeGreeting M))
    ∧ (∀ u p s, u.length ≤ 255 → p.length ≤ 255 → 2 ≤ u.length + p.length →
      Socks5.parse_username_password (specEncodeUsernamePassword u p ++ s)
        = Socks5.parse_username_password (specEncodeUsernamePassword u p))
    ∧ (∀ a b c d q1 q2 s,
      Socks5.parse_connection_request (specEncodeConnIPv4 a b c d q1 q2 ++ s)
        = Socks5.parse_connection_request (specEncodeConnIPv4 a b c d q1 q2))
    ∧ (∀ dom q1 q2 s, 1 ≤ dom.length → dom.length ≤ 255 →
      Socks5.parse_connection_request (specEncodeConnDomain dom q1 q2 ++ s)
        = Socks5.parse_connection_request (specEncodeConnDomain dom q1 q2))
    ∧ (∀ xs q1 q2 s, xs.length = 16 →
      Socks5.parse_connection_request (specEncodeConnIPv6 xs q1 q2 ++ s)
        = Socks5.parse_connection_request (specEncodeConnIPv6 xs q1 q2)) := by
  refine ⟨?_, ?_, ?_, ?_, ?_⟩
  · intro M s h1 h2
    rw [parse_client_greeting_encode M s (by omega)]
    have h0 := parse_client_greeting_encode M [] (by omega)
    simp only [List.append_nil] at h0
    exact h0.symm
  · intro u p s hu hp h2
    rw [parse_username_password_encode u p s h2]
    have h0 := parse_username_password_encode u p [] h2
    simp only [List.append_nil] at h0
    exact h0.symm
  · intro a b c d q1 q2 s
    rw [parse_connection_request_ipv4_encode]
    have h0 := parse_connection_request_ipv4_encode a b c d q1 q2 []
    simp only [List.append_nil] at h0
    exact h0.symm
  · intro dom q1 q2 s h1 h2
    rw [parse_connection_request_domain_encode dom q1 q2 s h1]
    have h0 := parse_connection_request_domain_encode dom q1 q2 [] h1
    simp only [List.append_nil] at h0
    exact h0.symm
  · intro xs q1 q2 s h
    rw [parse_connection_request_ipv6_encode xs q1 q2 s h]
    have h0 := parse_connection_request_ipv6_encode xs q1 q2 [] h
    simp only [List.append_nil] at h0
    exact h0.symm

/-- C10 witness: each parser's trailing-byte invariance at one concrete
well-formed frame with one junk byte appended. -/
theorem parsers_ignore_trailing_bytes_amended_witness :
    Socks5.parse_client_greeting (specEncodeGreeting [0] ++ [7])
      = Socks5.parse_client_greeting (specEncodeGreeting [0])
    ∧ Socks5.parse_username_password (specEncodeUsernamePassword [97] [98] ++ [7])
      = Socks5.parse_username_password (specEncodeUsernamePassword [97] [98])
    ∧ Socks5.parse_connection_request (specEncodeConnIPv4 127 0 0 1 0 80 ++ [7])
      = Socks5.parse_connection_request (specEncodeConnIPv4 127 0 0 1 0 80)
    ∧ Socks5.parse_connection_request (specEncodeConnDomain [108] 0 80 ++ [7])
      = Socks5.parse_connection_request (specEncodeConnDomain [108] 0 80)
    ∧ Socks5.parse_connection_request
        (specEncodeConnIPv6 [0, 0, 0, 0, 0, 0, 0, 0, 0, 0, 0, 0, 0, 0, 0, 1] 0 80 ++ [7])
      = Socks5.parse_connection_request
        (specEncodeConnIPv6 [0, 0, 0, 0, 0, 0, 0, 0, 0, 0, 0, 0, 0, 0, 0, 1] 0 80) :=
  ⟨parsers_ignore_trailing_bytes_amended.1 [0] [7] (by decide) (by decide),
   parsers_ignore_trailing_bytes_amended.2.1 [97] [98] [7] (by decide) (by decide) (by decide),
   parsers_ignore_trailing_bytes_amended.2.2.1 127 0 0 1 0 80 [7],
   parsers_ignore_trailing_bytes_amended.2.2.2.1 [108] 0 80 [7] (by decide) (by decide),
   parsers_ignore_trailing_bytes_amended.2.2.2.2 [0, 0, 0, 0, 0, 0, 0, 0, 0, 0, 0, 0, 0, 0, 0, 1]
     0 80 [7] (by decide)⟩

/-- C1 witness: the AttributeError at the concrete fresh session state. -/
theorem remote_on_connect_raises_attribute_error_witness :
    RemoteServerProtocol.on_connect freshSession = Except.error PyErr.attributeError
    ∧ Socks5Protocol.remote_connection_success freshSession =
        Except.error PyErr.attributeError :=
  remote_on_connect_raises_attribute_error freshSession

/-- C2 witness: the AttributeError at the concrete fresh session state. -/
theorem remote_connection_failure_raises_attribute_error_witness :
    Socks5Protocol.remote_connection_failure freshSession =
      Except.error PyErr.attributeError :=
  remote_connection_failure_raises_attribute_error freshSession

/-- C4 witness: the AttributeError at the concrete connected protocol state. -/
theorem protocol_close_always_raises_attribute_error_witness :
    Protocol.close connectedProto = Except.error PyErr.attributeError :=
  protocol_close_always_raises_attribute_error connectedProto
